import Mathlib

/-!
# User Agent Blocking Rule resource

A shallow embedding of
`internal/sdkv2provider/resource_cloudflare_user_agent_blocking_rule.go`.

* Go strings are Lean `String`s (sequences of characters).  The only string
  operation the resource performs is a split on `"/"`, an ASCII character, so
  splitting the character sequence and splitting the UTF-8 bytes agree.
* `*schema.ResourceData` is the record `ResourceData`; the Go code mutates it
  in place, the embedding passes it through every operation.
* `*cloudflare.API` is a record of four functions over an arbitrary remote
  state `σ`; every remote call is recorded, together with its outcome, in the
  list of `Event`s an operation returns.
-/

namespace UserAgentBlockingRule

/-! ## Go errors -/

/-- Go `error` values, as far as this resource can tell them apart.  `notFound`
is a `*cloudflare.NotFoundError`; `other` is any other error value without a
cause; `wrap` is `errors.Wrap(cause, message)`; `errorf` is `fmt.Errorf` with
no `%w` verb and `errorfW` is `fmt.Errorf` whose format ends in `%w`. -/
inductive GoError where
  | notFound (msg : String)
  | other (msg : String)
  | wrap (cause : GoError) (message : String)
  | errorf (format : String) (args : List String)
  | errorfW (format : String) (args : List String) (cause : GoError)
  deriving DecidableEq, Repr

/-- The test `errors.As(err, &notFoundError)` with
`notFoundError : *cloudflare.NotFoundError`: it walks the chain of causes. -/
def errorsAsNotFound : GoError → Bool
  | .notFound _ => true
  | .other _ => false
  | .wrap cause _ => errorsAsNotFound cause
  | .errorf _ _ => false
  | .errorfW _ _ cause => errorsAsNotFound cause

/-! ## Diagnostics -/

/-- The severities of `diag.Diagnostic`. -/
inductive Severity where
  | Error
  | Warning
  deriving DecidableEq, Repr

/-- A `diag.Diagnostic`.  Its `Summary` is `err.Error()`; the embedding keeps
the error value the summary is rendered from. -/
structure Diagnostic where
  Severity : Severity
  Summary : GoError
  deriving DecidableEq, Repr

/-- The type `diag.Diagnostics`; the Go `nil` is the empty list. -/
abbrev Diagnostics := List Diagnostic

/-- The function `diag.FromErr` at a non-nil error. -/
def diagFromErr (err : GoError) : Diagnostics :=
  [{ Severity := Severity.Error, Summary := err }]

/-! ## Remote records -/

/-- The struct `cloudflare.UserAgentRuleConfig`. -/
structure UserAgentRuleConfig where
  Target : String
  Value : String
  deriving DecidableEq, Repr

/-- The struct `cloudflare.UserAgentRule`.  `Configuration` is a struct value,
not a pointer: a rule always carries one. -/
structure UserAgentRule where
  ID : String
  Description : String
  Mode : String
  Configuration : UserAgentRuleConfig
  Paused : Bool
  deriving DecidableEq, Repr

/-- The struct `cloudflare.UserAgentRuleResponse`, reduced to its `Result`. -/
structure UserAgentRuleResponse where
  Result : UserAgentRule
  deriving DecidableEq, Repr

/-! ## Local records -/

/-- One entry of the `configuration` list: the `map[string]interface{}` with
the keys `"target"` and `"value"`. -/
structure ConfigurationBlock where
  target : String
  value : String
  deriving DecidableEq, Repr

/-- Modelled from the spec: the field storage of `*schema.ResourceData` under
the schema `resourceCloudflareUserAgentBlockingRulesSchema()`, which is not
part of the file.  The spec's data model gives the fields: the identifier
slot, `zone_id`, `description`, `paused`, `mode` and the optional nested
block `configuration`, stored as a list of maps. -/
structure ResourceData where
  id : String
  zone_id : String
  description : String
  paused : Bool
  mode : String
  configuration : List ConfigurationBlock
  deriving DecidableEq, Repr

namespace ResourceData

/-- The method `d.Id()`. -/
def Id (d : ResourceData) : String := d.id

/-- The method `d.SetId(v)`. -/
def SetId (d : ResourceData) (v : String) : ResourceData := { d with id := v }

/-- The call `d.GetOk("configuration")`: the list, and whether it differs from
the zero value of a list. -/
def GetOkConfiguration (d : ResourceData) : List ConfigurationBlock × Bool :=
  (d.configuration, !d.configuration.isEmpty)

/-- The call `d.GetOk("configuration.0.target")`: the string, and whether it
is present and differs from `""`. -/
def GetOkConfiguration0Target (d : ResourceData) : String × Bool :=
  match d.configuration with
  | [] => ("", false)
  | c :: _ => (c.target, c.target != "")

/-- The call `d.GetOk("configuration.0.value")`. -/
def GetOkConfiguration0Value (d : ResourceData) : String × Bool :=
  match d.configuration with
  | [] => ("", false)
  | c :: _ => (c.value, c.value != "")

end ResourceData

/-! ## The remote client -/

/-- A call to the remote client, with its arguments. -/
inductive Call where
  | CreateUserAgentRule (zoneID : String) (ld : UserAgentRule)
  | UserAgentRule (zoneID : String) (id : String)
  | UpdateUserAgentRule (zoneID : String) (id : String) (ld : UserAgentRule)
  | DeleteUserAgentRule (zoneID : String) (id : String)
  deriving DecidableEq, Repr

/-- A remote call together with the error it returned, if any. -/
structure Event where
  call : Call
  err : Option GoError
  deriving DecidableEq, Repr

/-- The four methods of `*cloudflare.API` the resource uses, over a remote
state `σ`: each takes the state before the call and returns the response or the
error together with the state after it. -/
structure API (σ : Type) where
  CreateUserAgentRule : σ → String → UserAgentRule → Except GoError UserAgentRuleResponse × σ
  UpdateUserAgentRule : σ → String → String → UserAgentRule → Except GoError UserAgentRuleResponse × σ
  DeleteUserAgentRule : σ → String → String → Except GoError UserAgentRuleResponse × σ
  UserAgentRule : σ → String → String → Except GoError UserAgentRuleResponse × σ

/-- The levels of `tflog` used by the resource. -/
inductive LogLevel where
  | Debug
  | Info
  deriving DecidableEq, Repr

/-- What an operation leaves behind: its return value, the record, the remote
state, the remote calls it made and the log lines it wrote, in order. -/
structure Outcome (σ : Type) (α : Type) where
  ret : α
  d : ResourceData
  remote : σ
  calls : List Event
  logs : List (LogLevel × String)

/-! ## `strings.SplitN` -/

/-- The function `strings.Index` on character sequences: the position of the
first occurrence of `sep` in `s`, `none` for Go's `-1`. -/
def Index : List Char → List Char → Option Nat
  | [], sep => if sep.isEmpty then some 0 else none
  | c :: t, sep =>
    if List.isPrefixOf sep (c :: t) then some 0
    else (Index t sep).map (· + 1)

/-- The loop of `strings.genSplit`, with `k` the number of separators it may
still consume (`n - 1 - i` in the Go code). -/
def genSplitLoop : Nat → List Char → List Char → Nat → List (List Char)
  | 0, s, _, _ => [s]
  | k + 1, s, sep, sepSave =>
    match Index s sep with
    | none => [s]
    | some m => s.take (m + sepSave) :: genSplitLoop k (s.drop (m + sep.length)) sep sepSave

/-- The function `strings.genSplit` of the Go standard library, on the inputs
the resource gives it: a non-empty separator and `n ≥ 0` (the call is
`SplitN(d.Id(), "/", 2)`).  `n` is capped at `len(s) + 1`; a string that does
not contain the separator comes back as the one-element list. -/
def genSplit (s sep : List Char) (sepSave n : Nat) : List (List Char) :=
  if n = 0 then []
  else
    let n := if n > s.length + 1 then s.length + 1 else n
    genSplitLoop (n - 1) s sep sepSave

/-- The function `strings.SplitN(s, sep, n)`. -/
def SplitN (s sep : String) (n : Nat) : List String :=
  (genSplit s.data sep.data 0 n).map String.mk

/-! ## The mapper -/

/-- The function `buildUserAgentBlockingRules`. -/
def buildUserAgentBlockingRules (d : ResourceData) : UserAgentRule :=
  let rule : UserAgentRule :=
    { ID := "", Description := d.description, Paused := d.paused, Mode := d.mode,
      Configuration := { Target := "", Value := "" } }
  if d.GetOkConfiguration.2 then
    let configuration : UserAgentRuleConfig := { Target := "", Value := "" }
    let configuration :=
      if d.GetOkConfiguration0Target.2 then
        { configuration with Target := d.GetOkConfiguration0Target.1 }
      else configuration
    let configuration :=
      if d.GetOkConfiguration0Value.2 then
        { configuration with Value := d.GetOkConfiguration0Value.1 }
      else configuration
    { rule with Configuration := configuration }
  else rule

/-- The function `convertConfigurationToSchema`. -/
def convertConfigurationToSchema (configuration : UserAgentRuleConfig) :
    List ConfigurationBlock :=
  [{ target := configuration.Target, value := configuration.Value }]

/-! ## The operations -/

section Operations

variable {σ : Type}

/-- The function `resourceCloudflareUserAgentBlockingRulesRead`. -/
def resourceCloudflareUserAgentBlockingRulesRead (client : API σ) (d : ResourceData)
    (s : σ) : Outcome σ Diagnostics :=
  let zoneID := d.zone_id
  match client.UserAgentRule s zoneID d.Id with
  | (.error err, s1) =>
    let ev : Event := { call := .UserAgentRule zoneID d.Id, err := some err }
    if errorsAsNotFound err then
      { ret := [], d := d.SetId "", remote := s1, calls := [ev],
        logs := [(.Info, "User Agent Blocking Rule " ++ d.Id ++ " no longer exists")] }
    else
      { ret := diagFromErr
          (.errorfW "error finding User Agent Blocking Rule %q: %w" [d.Id] err),
        d := d, remote := s1, calls := [ev], logs := [] }
  | (.ok ua, s1) =>
    let ev : Event := { call := .UserAgentRule zoneID d.Id, err := none }
    let d := { d with paused := ua.Result.Paused }
    let d := { d with mode := ua.Result.Mode }
    let d := { d with description := ua.Result.Description }
    let d := { d with configuration := convertConfigurationToSchema ua.Result.Configuration }
    { ret := [], d := d, remote := s1, calls := [ev], logs := [] }

/-- The function `resourceCloudflareUserAgentBlockingRulesCreate`. -/
def resourceCloudflareUserAgentBlockingRulesCreate (client : API σ) (d : ResourceData)
    (s : σ) : Outcome σ Diagnostics :=
  let zoneID := d.zone_id
  let newRule := buildUserAgentBlockingRules d
  match client.CreateUserAgentRule s zoneID newRule with
  | (.error err, s1) =>
    { ret := diagFromErr (.wrap err "failed to create User Agent Blocking Rule"),
      d := d, remote := s1,
      calls := [{ call := .CreateUserAgentRule zoneID newRule, err := some err }],
      logs := [] }
  | (.ok rule, s1) =>
    let d := d.SetId rule.Result.ID
    let r := resourceCloudflareUserAgentBlockingRulesRead client d s1
    { r with calls := { call := .CreateUserAgentRule zoneID newRule, err := none } :: r.calls }

/-- The function `resourceCloudflareUserAgentBlockingRulesUpdate`. -/
def resourceCloudflareUserAgentBlockingRulesUpdate (client : API σ) (d : ResourceData)
    (s : σ) : Outcome σ Diagnostics :=
  let zoneID := d.zone_id
  let ua := buildUserAgentBlockingRules d
  match client.UpdateUserAgentRule s zoneID d.Id ua with
  | (.error err, s1) =>
    { ret := diagFromErr (.wrap err "failed to update User Agent Blocking Rule"),
      d := d, remote := s1,
      calls := [{ call := .UpdateUserAgentRule zoneID d.Id ua, err := some err }],
      logs := [] }
  | (.ok _, s1) =>
    let r := resourceCloudflareUserAgentBlockingRulesRead client d s1
    { r with calls := { call := .UpdateUserAgentRule zoneID d.Id ua, err := none } :: r.calls }

/-- The function `resourceCloudflareUserAgentBlockingRulesDelete`. -/
def resourceCloudflareUserAgentBlockingRulesDelete (client : API σ) (d : ResourceData)
    (s : σ) : Outcome σ Diagnostics :=
  let zoneID := d.zone_id
  match client.DeleteUserAgentRule s zoneID d.Id with
  | (.error err, s1) =>
    { ret := diagFromErr (.wrap err "failed to delete User Agent Blocking Rule"),
      d := d, remote := s1,
      calls := [{ call := .DeleteUserAgentRule zoneID d.Id, err := some err }],
      logs := [] }
  | (.ok _, s1) =>
    let r := resourceCloudflareUserAgentBlockingRulesRead client d s1
    { r with calls := { call := .DeleteUserAgentRule zoneID d.Id, err := none } :: r.calls }

/-- The function `resourceCloudflareUserAgentBlockingRulesImport`.  The return
value is the Go pair `([]*schema.ResourceData, error)`: `.error e` for
`(nil, e)` and `.ok ds` for `(ds, nil)`; on success the one record of the list
is the record passed in, as left by the chained Read. -/
def resourceCloudflareUserAgentBlockingRulesImport (client : API σ) (d : ResourceData)
    (s : σ) : Outcome σ (Except GoError (List ResourceData)) :=
  match SplitN d.Id "/" 2 with
  | [zoneID, userAgentBlockingRuleID] =>
    let dbg := "Importing Cloudflare User Agent Blocking Rule: id " ++
      userAgentBlockingRuleID ++ " for account " ++ zoneID
    let d := { d with zone_id := zoneID }
    let d := d.SetId userAgentBlockingRuleID
    let r := resourceCloudflareUserAgentBlockingRulesRead client d s
    { ret := Except.ok [r.d], d := r.d, remote := r.remote, calls := r.calls,
      logs := (.Debug, dbg) :: r.logs }
  | _ =>
    { ret := Except.error (GoError.errorf
        "invalid id (\"%s\") specified, should be in format \"zoneID/userAgentBlockingRuleID\""
        [d.Id]),
      d := d, remote := s, calls := [], logs := [] }

end Operations

/-! ## Example remotes -/

/-- A remote that answers every call with the next entry of a script, and with
an error once the script is used up. -/
def scripted : API (List (Except GoError UserAgentRuleResponse)) where
  CreateUserAgentRule := fun s _ _ =>
    match s with
    | [] => (.error (.other "script exhausted"), [])
    | r :: rest => (r, rest)
  UpdateUserAgentRule := fun s _ _ _ =>
    match s with
    | [] => (.error (.other "script exhausted"), [])
    | r :: rest => (r, rest)
  DeleteUserAgentRule := fun s _ _ =>
    match s with
    | [] => (.error (.other "script exhausted"), [])
    | r :: rest => (r, rest)
  UserAgentRule := fun s _ _ =>
    match s with
    | [] => (.error (.other "script exhausted"), [])
    | r :: rest => (r, rest)

/-- A remote that keeps the rules of every zone in a list, next to a counter
for fresh identifiers: create stores the rule under a fresh identifier;
lookup, update and delete of a missing rule report not-found; delete removes
the rule. -/
def store : API (Nat × List (String × UserAgentRule)) where
  CreateUserAgentRule := fun s zoneID ld =>
    let rule := { ld with ID := String.mk (List.replicate (s.1 + 1) 'r') }
    (.ok { Result := rule }, (s.1 + 1, s.2 ++ [(zoneID, rule)]))
  UpdateUserAgentRule := fun s zoneID id ld =>
    if s.2.any (fun e => e.1 == zoneID && e.2.ID == id) then
      let rule := { ld with ID := id }
      (.ok { Result := rule },
        (s.1, s.2.map (fun e => if e.1 == zoneID && e.2.ID == id then (zoneID, rule) else e)))
    else (.error (.notFound "rule not found"), s)
  DeleteUserAgentRule := fun s zoneID id =>
    match s.2.find? (fun e => e.1 == zoneID && e.2.ID == id) with
    | some e =>
      (.ok { Result := e.2 }, (s.1, s.2.filter (fun e => !(e.1 == zoneID && e.2.ID == id))))
    | none => (.error (.notFound "rule not found"), s)
  UserAgentRule := fun s zoneID id =>
    match s.2.find? (fun e => e.1 == zoneID && e.2.ID == id) with
    | some e => (.ok { Result := e.2 }, s)
    | none => (.error (.notFound "rule not found"), s)

/-- A local record used in the examples. -/
def sampleData : ResourceData :=
  { id := "", zone_id := "zoneA", description := "block bots", paused := false,
    mode := "block", configuration := [{ target := "ua", value := "BadBot/1.0" }] }

/-- A remote record used in the examples. -/
def sampleRule : UserAgentRule :=
  { ID := "ruleB", Description := "server side", Mode := "challenge",
    Configuration := { Target := "ua", Value := "Mozilla" }, Paused := true }

/-- Whether the remote `store` holds rule `id` of zone `zoneID` in state `s`. -/
def storeHolds (s : Nat × List (String × UserAgentRule)) (zoneID id : String) : Prop :=
  (s.2.find? (fun e => e.1 == zoneID && e.2.ID == id)).isSome = true

/-- Whether the lookup of rule `id` of zone `zoneID` in remote state `s` reports
a not-found error. -/
def lookupNotFound {σ : Type} (client : API σ) (s : σ) (zoneID id : String) : Bool :=
  match (client.UserAgentRule s zoneID id).1 with
  | .error err => errorsAsNotFound err
  | .ok _ => false

/-- Whether a recorded remote call returned an error that is not a not-found
error. -/
def Event.failed (ev : Event) : Bool :=
  match ev.err with
  | some err => !errorsAsNotFound err
  | none => false

/-! ## The split on the first separator -/

theorem Index_slash_none (l : List Char) (h : '/' ∉ l) : Index l ['/'] = none := by
  induction l with
  | nil => simp [Index]
  | cons c t ih =>
    have hc : c ≠ '/' := fun hc => h (by simp [hc])
    have ht : '/' ∉ t := fun ht => h (by simp [ht])
    have hc2 : ¬ ('/' = c) := fun h2 => hc h2.symm
    simp [Index, List.isPrefixOf, hc2, ih ht]

theorem Index_slash_first (z r : List Char) (h : '/' ∉ z) :
    Index (z ++ '/' :: r) ['/'] = some z.length := by
  induction z with
  | nil => simp [Index, List.isPrefixOf]
  | cons c t ih =>
    have hc : c ≠ '/' := fun hc => h (by simp [hc])
    have ht : '/' ∉ t := fun ht => h (by simp [ht])
    have hc2 : ¬ ('/' = c) := fun h2 => hc h2.symm
    simp [Index, List.isPrefixOf, hc2, ih ht]

theorem genSplit_slash_none (l : List Char) (h : '/' ∉ l) :
    genSplit l ['/'] 0 2 = [l] := by
  cases l with
  | nil => simp [genSplit, genSplitLoop]
  | cons c t =>
    simp [genSplit, genSplitLoop, Index_slash_none (c :: t) h]

theorem genSplit_slash_first (z r : List Char) (h : '/' ∉ z) :
    genSplit (z ++ '/' :: r) ['/'] 0 2 = [z, r] := by
  simp [genSplit, genSplitLoop, Index_slash_first z r h]

theorem SplitN_none (id : String) (h : '/' ∉ id.data) : SplitN id "/" 2 = [id] := by
  have hsep : ("/" : String).data = ['/'] := rfl
  simp [SplitN, hsep, genSplit_slash_none id.data h]

theorem SplitN_first (z r : String) (h : '/' ∉ z.data) :
    SplitN (z ++ "/" ++ r) "/" 2 = [z, r] := by
  have hsep : ("/" : String).data = ['/'] := rfl
  have hd : (z ++ "/" ++ r).data = z.data ++ '/' :: r.data := by
    simp [String.data_append, hsep]
  simp [SplitN, hsep, hd, genSplit_slash_first z.data r.data h]

theorem exists_first_slash (id : String) (h : '/' ∈ id.data) :
    ∃ z r : String, id = z ++ "/" ++ r ∧ '/' ∉ z.data := by
  obtain ⟨as, bs, hx, hn⟩ := List.eq_append_cons_of_mem h
  refine ⟨⟨as⟩, ⟨bs⟩, ?_, hn⟩
  apply String.ext
  have hsep : ("/" : String).data = ['/'] := rfl
  simp [String.data_append, hsep, hx]

/-! ## Import -/

section ImportTheorems

variable {σ : Type}

/-- C1, amended. For an id `z ++ "/" ++ r` with no `'/'` in `z`, Import returns
no error and exactly the one record it was given; it sets `zone_id` to `z` and
the identifier to `r` before the chained Read: the record returned is the one
that Read leaves from the given record with `zone_id := z` and `id := r`, and
the one remote call made is the lookup of rule `r` in zone `z`.  On return
`zone_id` is `z`, and the identifier is `r` unless that lookup reported
not-found, in which case it is the empty string. -/
theorem import_splits_once (client : API σ) (s : σ) (d : ResourceData) (z r : String)
    (hz : '/' ∉ z.data) (hid : d.id = z ++ "/" ++ r) :
    (resourceCloudflareUserAgentBlockingRulesImport client d s).ret
        = Except.ok [(resourceCloudflareUserAgentBlockingRulesImport client d s).d]
      ∧ (resourceCloudflareUserAgentBlockingRulesImport client d s).d
        = (resourceCloudflareUserAgentBlockingRulesRead client
            ({ d with zone_id := z }.SetId r) s).d
      ∧ (resourceCloudflareUserAgentBlockingRulesImport client d s).d.zone_id = z
      ∧ (resourceCloudflareUserAgentBlockingRulesImport client d s).calls.map Event.call
        = [Call.UserAgentRule z r]
      ∧ (lookupNotFound client s z r = false →
          (resourceCloudflareUserAgentBlockingRulesImport client d s).d.id = r)
      ∧ (lookupNotFound client s z r = true →
          (resourceCloudflareUserAgentBlockingRulesImport client d s).d.id = "") := by
  have hsplit : SplitN d.Id "/" 2 = [z, r] := by
    simp only [ResourceData.Id, hid]
    exact SplitN_first z r hz
  unfold resourceCloudflareUserAgentBlockingRulesImport
  rw [hsplit]
  simp only [resourceCloudflareUserAgentBlockingRulesRead, ResourceData.SetId,
    ResourceData.Id, lookupNotFound]
  rcases hres : client.UserAgentRule s z r with ⟨res, s1⟩
  cases res with
  | error err =>
    cases hnf : errorsAsNotFound err <;> simp [hnf]
  | ok ua => simp

/-- C1, as stated, fails: for the id `"zoneA/ruleB"` over a remote whose lookup
reports not-found, Import succeeds and returns the record with `zone_id`
`"zoneA"`, but its identifier is the empty string, not `"ruleB"`. -/
theorem import_not_found_returns_empty_id :
    '/' ∉ ("zoneA" : String).data
      ∧ ("zoneA/ruleB" : String) = "zoneA" ++ "/" ++ "ruleB"
      ∧ (resourceCloudflareUserAgentBlockingRulesImport scripted
          { sampleData with id := "zoneA/ruleB", zone_id := "" }
          [.error (.notFound "HTTP status 404")]).ret
        = Except.ok [{ sampleData with id := "", zone_id := "zoneA" }]
      ∧ (resourceCloudflareUserAgentBlockingRulesImport scripted
          { sampleData with id := "zoneA/ruleB", zone_id := "" }
          [.error (.notFound "HTTP status 404")]).d.id = ""
      ∧ (resourceCloudflareUserAgentBlockingRulesImport scripted
          { sampleData with id := "zoneA/ruleB", zone_id := "" }
          [.error (.notFound "HTTP status 404")]).d.id ≠ "ruleB" :=
  ⟨by decide, rfl, rfl, rfl, by decide⟩

/-- C1, amended, witness: the ids `"zoneA/ruleB"` and `"/"`, over a remote whose lookup
returns a record. -/
theorem import_splits_once_witness :
    '/' ∉ ("zoneA" : String).data
      ∧ (resourceCloudflareUserAgentBlockingRulesImport scripted
          { sampleData with id := "zoneA/ruleB", zone_id := "" }
          [.ok { Result := sampleRule }]).d.zone_id = "zoneA"
      ∧ (resourceCloudflareUserAgentBlockingRulesImport scripted
          { sampleData with id := "zoneA/ruleB", zone_id := "" }
          [.ok { Result := sampleRule }]).d.id = "ruleB"
      ∧ (resourceCloudflareUserAgentBlockingRulesImport scripted
          { sampleData with id := "/" } [.ok { Result := sampleRule }]).d.zone_id = ""
      ∧ (resourceCloudflareUserAgentBlockingRulesImport scripted
          { sampleData with id := "/" } [.ok { Result := sampleRule }]).d.id = "" :=
  have h1 := import_splits_once scripted [.ok { Result := sampleRule }]
    { sampleData with id := "zoneA/ruleB", zone_id := "" } "zoneA" "ruleB" (by decide) rfl
  have h2 := import_splits_once scripted [.ok { Result := sampleRule }]
    { sampleData with id := "/" } "" "" (by decide) rfl
  ⟨by decide, h1.2.2.1, h1.2.2.2.2.1 rfl, h2.2.2.1, h2.2.2.2.2.1 rfl⟩

/-- C2, as stated, fails: the id `"/"` splits into an empty zone part and an
empty rule part, and Import accepts it and returns the record. -/
theorem import_accepts_empty_parts :
    SplitN "/" "/" 2 = ["", ""]
      ∧ (resourceCloudflareUserAgentBlockingRulesImport scripted
          { sampleData with id := "/" } [.ok { Result := sampleRule }]).ret
        = Except.ok
            [{ id := "", zone_id := "", description := "server side", paused := true,
               mode := "challenge", configuration := [{ target := "ua", value := "Mozilla" }] }]
      ∧ (∃ ds, (resourceCloudflareUserAgentBlockingRulesImport scripted
          { sampleData with id := "/ruleB" } [.ok { Result := sampleRule }]).ret = Except.ok ds)
      ∧ (∃ ds, (resourceCloudflareUserAgentBlockingRulesImport scripted
          { sampleData with id := "zoneA/" } [.ok { Result := sampleRule }]).ret
            = Except.ok ds) :=
  ⟨by decide, rfl, ⟨_, rfl⟩, ⟨_, rfl⟩⟩

/-- C2, amended. Import fails if and only if the id contains no `'/'`.  Then the
error is the format error, no record is returned, the record is left as it
was and no remote call is made.  Every id that contains a `'/'` is accepted,
with the one record returned, also when the zone part or the rule part is
empty. -/
theorem import_fails_iff_no_slash (client : API σ) (s : σ) (d : ResourceData) :
    ((∃ err, (resourceCloudflareUserAgentBlockingRulesImport client d s).ret
        = Except.error err) ↔ '/' ∉ d.id.data)
      ∧ ('/' ∉ d.id.data →
          (resourceCloudflareUserAgentBlockingRulesImport client d s).ret
            = Except.error (GoError.errorf
                "invalid id (\"%s\") specified, should be in format \"zoneID/userAgentBlockingRuleID\""
                [d.id])
          ∧ (resourceCloudflareUserAgentBlockingRulesImport client d s).d = d
          ∧ (resourceCloudflareUserAgentBlockingRulesImport client d s).remote = s
          ∧ (resourceCloudflareUserAgentBlockingRulesImport client d s).calls = [])
      ∧ ('/' ∈ d.id.data →
          (resourceCloudflareUserAgentBlockingRulesImport client d s).ret
            = Except.ok [(resourceCloudflareUserAgentBlockingRulesImport client d s).d]) := by
  have hno : '/' ∉ d.id.data →
      (resourceCloudflareUserAgentBlockingRulesImport client d s).ret
        = Except.error (GoError.errorf
            "invalid id (\"%s\") specified, should be in format \"zoneID/userAgentBlockingRuleID\""
            [d.id])
      ∧ (resourceCloudflareUserAgentBlockingRulesImport client d s).d = d
      ∧ (resourceCloudflareUserAgentBlockingRulesImport client d s).remote = s
      ∧ (resourceCloudflareUserAgentBlockingRulesImport client d s).calls = [] := by
    intro h
    have hsplit : SplitN d.Id "/" 2 = [d.id] := SplitN_none d.id h
    unfold resourceCloudflareUserAgentBlockingRulesImport
    rw [hsplit]
    simp [ResourceData.Id]
  have hyes : '/' ∈ d.id.data →
      (resourceCloudflareUserAgentBlockingRulesImport client d s).ret
        = Except.ok [(resourceCloudflareUserAgentBlockingRulesImport client d s).d] := by
    intro h
    obtain ⟨z, r, hid, hz⟩ := exists_first_slash d.id h
    have hsplit : SplitN d.Id "/" 2 = [z, r] := by
      simp only [ResourceData.Id, hid]
      exact SplitN_first z r hz
    unfold resourceCloudflareUserAgentBlockingRulesImport
    rw [hsplit]
  refine ⟨⟨?_, fun h => ⟨_, (hno h).1⟩⟩, hno, hyes⟩
  rintro ⟨err, herr⟩ hmem
  rw [hyes hmem] at herr
  cases herr

/-- C2, amended, witness: `"zoneAonly"` is rejected. -/
theorem import_fails_iff_no_slash_witness :
    '/' ∉ ("zoneAonly" : String).data
      ∧ (resourceCloudflareUserAgentBlockingRulesImport scripted
          { sampleData with id := "zoneAonly" } [.ok { Result := sampleRule }]).calls = []
      ∧ (resourceCloudflareUserAgentBlockingRulesImport scripted
          { sampleData with id := "zoneAonly" } [.ok { Result := sampleRule }]).d
        = { sampleData with id := "zoneAonly" } :=
  have h := (import_fails_iff_no_slash scripted [.ok { Result := sampleRule }]
    { sampleData with id := "zoneAonly" }).2.1 (by decide)
  ⟨by decide, h.2.2.2, h.2.1⟩

/-- C10. For every id containing `'/'`, with `z` the part before the first
`'/'` and `r` the part after it, Import returns the record with a nil error
whatever the lookup of the chained Read answers.  When the lookup fails with
an error that is not not-found, the record returned is the given one with only
`zone_id` and the identifier set; when it reports not-found, the record
returned is the given one with `zone_id` set and the identifier empty. -/
theorem import_discards_read_outcome (client : API σ) (s : σ) (d : ResourceData)
    (h : '/' ∈ d.id.data) :
    ∃ z r : String, d.id = z ++ "/" ++ r ∧ '/' ∉ z.data
      ∧ (resourceCloudflareUserAgentBlockingRulesImport client d s).ret
        = Except.ok [(resourceCloudflareUserAgentBlockingRulesImport client d s).d]
      ∧ (∀ err, (client.UserAgentRule s z r).1 = Except.error err →
          errorsAsNotFound err = false →
          (resourceCloudflareUserAgentBlockingRulesImport client d s).d
            = { d with zone_id := z, id := r })
      ∧ (∀ err, (client.UserAgentRule s z r).1 = Except.error err →
          errorsAsNotFound err = true →
          (resourceCloudflareUserAgentBlockingRulesImport client d s).d
            = { d with zone_id := z, id := "" }) := by
  obtain ⟨z, r, hid, hz⟩ := exists_first_slash d.id h
  refine ⟨z, r, hid, hz, ?_⟩
  have hsplit : SplitN d.Id "/" 2 = [z, r] := by
    simp only [ResourceData.Id, hid]
    exact SplitN_first z r hz
  unfold resourceCloudflareUserAgentBlockingRulesImport
  rw [hsplit]
  simp only [resourceCloudflareUserAgentBlockingRulesRead, ResourceData.SetId,
    ResourceData.Id]
  rcases hres : client.UserAgentRule s z r with ⟨res, s1⟩
  cases res with
  | error err =>
    cases hnf : errorsAsNotFound err <;> simp [hnf]
  | ok ua => simp

/-- C10, witness: the id `"zoneA/ruleB"` over a remote whose lookup fails with
an error that is not not-found, and over one whose lookup reports not-found. -/
theorem import_discards_read_outcome_witness :
    '/' ∈ ("zoneA/ruleB" : String).data
      ∧ (resourceCloudflareUserAgentBlockingRulesImport scripted
          { sampleData with id := "zoneA/ruleB", zone_id := "" }
          [.error (.other "connection reset")]).ret
        = Except.ok [{ sampleData with id := "ruleB", zone_id := "zoneA" }]
      ∧ (resourceCloudflareUserAgentBlockingRulesImport scripted
          { sampleData with id := "zoneA/ruleB", zone_id := "" }
          [.error (.notFound "no such rule")]).ret
        = Except.ok [{ sampleData with id := "", zone_id := "zoneA" }] := by
  refine ⟨by decide, ?_, ?_⟩
  · obtain ⟨z, r, _, _, hret, _, _⟩ := import_discards_read_outcome scripted
      [.error (.other "connection reset")]
      { sampleData with id := "zoneA/ruleB", zone_id := "" } (by decide)
    rw [hret]; rfl
  · obtain ⟨z, r, _, _, hret, _, _⟩ := import_discards_read_outcome scripted
      [.error (.notFound "no such rule")]
      { sampleData with id := "zoneA/ruleB", zone_id := "" } (by decide)
    rw [hret]; rfl

end ImportTheorems

/-! ## Read and Create -/

section ReadCreateTheorems

variable {σ : Type}

/-- Read only ever keeps the identifier or sets it to the empty string. -/
theorem read_id_kept_or_cleared (client : API σ) (d : ResourceData) (s : σ) :
    (resourceCloudflareUserAgentBlockingRulesRead client d s).d.id = d.id
      ∨ (resourceCloudflareUserAgentBlockingRulesRead client d s).d.id = "" := by
  simp only [resourceCloudflareUserAgentBlockingRulesRead, ResourceData.SetId,
    ResourceData.Id]
  rcases hres : client.UserAgentRule s d.zone_id d.id with ⟨res, s1⟩
  cases res with
  | error err => cases hnf : errorsAsNotFound err <;> simp [hnf]
  | ok ua => simp

/-- Read leaves the identifier as it was unless the lookup reports not-found. -/
theorem read_id_of_lookup (client : API σ) (d : ResourceData) (s : σ) :
    (resourceCloudflareUserAgentBlockingRulesRead client d s).d.id
      = if lookupNotFound client s d.zone_id d.id then "" else d.id := by
  have hres : client.UserAgentRule s d.zone_id d.id
      = ((client.UserAgentRule s d.zone_id d.id).1, (client.UserAgentRule s d.zone_id d.id).2) :=
    rfl
  unfold lookupNotFound
  generalize (client.UserAgentRule s d.zone_id d.id).1 = res at hres
  generalize (client.UserAgentRule s d.zone_id d.id).2 = s1 at hres
  simp only [resourceCloudflareUserAgentBlockingRulesRead, ResourceData.SetId,
    ResourceData.Id, hres]
  cases res with
  | error err => cases hnf : errorsAsNotFound err <;> simp [hnf]
  | ok ua => simp

/-- C3. If the lookup made by Read reports a not-found error, Read sets the
identifier to the empty string, returns no diagnostics, and leaves `paused`,
`mode`, `description` and `configuration` (and `zone_id`) unchanged. -/
theorem read_not_found_clears_id (client : API σ) (d : ResourceData) (s : σ)
    (err : GoError) (hcall : (client.UserAgentRule s d.zone_id d.id).1 = Except.error err)
    (hnf : errorsAsNotFound err = true) :
    (resourceCloudflareUserAgentBlockingRulesRead client d s).d.id = ""
      ∧ (resourceCloudflareUserAgentBlockingRulesRead client d s).ret = []
      ∧ (resourceCloudflareUserAgentBlockingRulesRead client d s).d.paused = d.paused
      ∧ (resourceCloudflareUserAgentBlockingRulesRead client d s).d.mode = d.mode
      ∧ (resourceCloudflareUserAgentBlockingRulesRead client d s).d.description
        = d.description
      ∧ (resourceCloudflareUserAgentBlockingRulesRead client d s).d.configuration
        = d.configuration
      ∧ (resourceCloudflareUserAgentBlockingRulesRead client d s).d.zone_id = d.zone_id := by
  simp only [resourceCloudflareUserAgentBlockingRulesRead, ResourceData.SetId,
    ResourceData.Id]
  rcases hres : client.UserAgentRule s d.zone_id d.id with ⟨res, s1⟩
  rw [hres] at hcall
  simp only at hcall
  subst hcall
  simp [hnf]

/-- C3, witness: a remote whose lookup answers with a not-found error wrapped
once. -/
theorem read_not_found_clears_id_witness :
    (resourceCloudflareUserAgentBlockingRulesRead scripted
        { sampleData with id := "ruleB" }
        [.error (.wrap (.notFound "no such rule") "HTTP status 404")]).d
      = { sampleData with id := "" }
      ∧ (resourceCloudflareUserAgentBlockingRulesRead scripted
        { sampleData with id := "ruleB" }
        [.error (.wrap (.notFound "no such rule") "HTTP status 404")]).ret = [] :=
  have h := read_not_found_clears_id scripted { sampleData with id := "ruleB" }
    [.error (.wrap (.notFound "no such rule") "HTTP status 404")]
    (.wrap (.notFound "no such rule") "HTTP status 404") rfl rfl
  ⟨rfl, h.2.1⟩

/-- C4. If the identifier is unset and the remote create call returns an error,
Create returns a non-empty diagnostics list, the identifier is still unset
afterwards (the record is untouched), and the create call is the only remote
call made: no lookup is issued. -/
theorem create_failure_leaves_id_unset (client : API σ) (d : ResourceData) (s : σ)
    (err : GoError) (hid : d.id = "")
    (hcall : (client.CreateUserAgentRule s d.zone_id (buildUserAgentBlockingRules d)).1
      = Except.error err) :
    (resourceCloudflareUserAgentBlockingRulesCreate client d s).ret ≠ []
      ∧ (resourceCloudflareUserAgentBlockingRulesCreate client d s).d.id = ""
      ∧ (resourceCloudflareUserAgentBlockingRulesCreate client d s).d = d
      ∧ (resourceCloudflareUserAgentBlockingRulesCreate client d s).calls
        = [{ call := Call.CreateUserAgentRule d.zone_id (buildUserAgentBlockingRules d),
             err := some err }]
      ∧ (∀ ev ∈ (resourceCloudflareUserAgentBlockingRulesCreate client d s).calls,
          ∀ zoneID id, ev.call ≠ Call.UserAgentRule zoneID id) := by
  simp only [resourceCloudflareUserAgentBlockingRulesCreate]
  rcases hres : client.CreateUserAgentRule s d.zone_id (buildUserAgentBlockingRules d)
    with ⟨res, s1⟩
  rw [hres] at hcall
  simp only at hcall
  subst hcall
  simp [diagFromErr, hid]

/-- C4, witness: a remote whose create call fails. -/
theorem create_failure_leaves_id_unset_witness :
    sampleData.id = ""
      ∧ (resourceCloudflareUserAgentBlockingRulesCreate scripted sampleData
          [.error (.other "quota exceeded"), .ok { Result := sampleRule }]).ret ≠ []
      ∧ (resourceCloudflareUserAgentBlockingRulesCreate scripted sampleData
          [.error (.other "quota exceeded"), .ok { Result := sampleRule }]).d.id = "" :=
  have h := create_failure_leaves_id_unset scripted sampleData
    [.error (.other "quota exceeded"), .ok { Result := sampleRule }]
    (.other "quota exceeded") rfl rfl
  ⟨rfl, h.1, h.2.1⟩

end ReadCreateTheorems

/-! ## The mapper round trip -/

section MapperTheorems

variable {σ : Type}

/-- What Read writes when the lookup succeeds: the four fields of the remote
record, with the identifier and `zone_id` kept. -/
theorem read_ok (client : API σ) (d : ResourceData) (s : σ) (ua : UserAgentRuleResponse)
    (hcall : (client.UserAgentRule s d.zone_id d.id).1 = Except.ok ua) :
    (resourceCloudflareUserAgentBlockingRulesRead client d s).ret = []
      ∧ (resourceCloudflareUserAgentBlockingRulesRead client d s).d
        = { id := d.id, zone_id := d.zone_id, description := ua.Result.Description,
            paused := ua.Result.Paused, mode := ua.Result.Mode,
            configuration := [{ target := ua.Result.Configuration.Target,
                                value := ua.Result.Configuration.Value }] } := by
  simp only [resourceCloudflareUserAgentBlockingRulesRead, ResourceData.SetId,
    ResourceData.Id]
  rcases hres : client.UserAgentRule s d.zone_id d.id with ⟨res, s1⟩
  rw [hres] at hcall
  simp only at hcall
  subst hcall
  simp [convertConfigurationToSchema]

/-- The configuration `buildUserAgentBlockingRules` sends for a record with a
configuration block: target and value of the first entry. -/
theorem build_configuration_cons (d : ResourceData) (c : ConfigurationBlock)
    (rest : List ConfigurationBlock) (h : d.configuration = c :: rest) :
    (buildUserAgentBlockingRules d).Configuration
      = { Target := c.target, Value := c.value } := by
  by_cases ht : c.target = "" <;> by_cases hv : c.value = "" <;>
    simp [buildUserAgentBlockingRules, ResourceData.GetOkConfiguration,
      ResourceData.GetOkConfiguration0Target, ResourceData.GetOkConfiguration0Value, h, ht, hv]

/-- The configuration `buildUserAgentBlockingRules` sends for a record without
a configuration block: the zero value of the struct. -/
theorem build_configuration_nil (d : ResourceData) (h : d.configuration = []) :
    (buildUserAgentBlockingRules d).Configuration = { Target := "", Value := "" } := by
  simp [buildUserAgentBlockingRules, ResourceData.GetOkConfiguration, h]

/-- The fields `buildUserAgentBlockingRules` copies verbatim. -/
theorem build_scalars (d : ResourceData) :
    (buildUserAgentBlockingRules d).Description = d.description
      ∧ (buildUserAgentBlockingRules d).Paused = d.paused
      ∧ (buildUserAgentBlockingRules d).Mode = d.mode := by
  unfold buildUserAgentBlockingRules
  split <;> simp

/-- C5, as stated, fails: for a record without a configuration block, the
record Read writes back from `buildUserAgentBlockingRules` has a configuration
block, with an empty target and an empty value. -/
theorem round_trip_absent_configuration_not_absent :
    ({ sampleData with configuration := [] } : ResourceData).configuration = []
      ∧ (resourceCloudflareUserAgentBlockingRulesRead scripted
          { sampleData with configuration := [] }
          [.ok { Result := buildUserAgentBlockingRules
                  { sampleData with configuration := [] } }]).d.configuration
        = [{ target := "", value := "" }]
      ∧ (resourceCloudflareUserAgentBlockingRulesRead scripted
          { sampleData with configuration := [] }
          [.ok { Result := buildUserAgentBlockingRules
                  { sampleData with configuration := [] } }]).d.configuration ≠ [] :=
  ⟨rfl, rfl, by decide⟩

/-- C5, amended. When the lookup of Read returns the remote record
`buildUserAgentBlockingRules d`, Read leaves `description`, `paused` and `mode`
as they are in `d`; when `d` has a configuration block the result has the
one-entry configuration with the target and the value of that block (so a
record with exactly one block keeps its configuration); and when `d` has no
configuration block the result has the one-entry configuration with an empty
target and an empty value. -/
theorem round_trip (client : API σ) (d : ResourceData) (s : σ)
    (hcall : (client.UserAgentRule s d.zone_id d.id).1
      = Except.ok { Result := buildUserAgentBlockingRules d }) :
    (resourceCloudflareUserAgentBlockingRulesRead client d s).d.description = d.description
      ∧ (resourceCloudflareUserAgentBlockingRulesRead client d s).d.paused = d.paused
      ∧ (resourceCloudflareUserAgentBlockingRulesRead client d s).d.mode = d.mode
      ∧ (∀ c rest, d.configuration = c :: rest →
          (resourceCloudflareUserAgentBlockingRulesRead client d s).d.configuration = [c])
      ∧ (∀ c, d.configuration = [c] →
          (resourceCloudflareUserAgentBlockingRulesRead client d s).d = d)
      ∧ (d.configuration = [] →
          (resourceCloudflareUserAgentBlockingRulesRead client d s).d.configuration
            = [{ target := "", value := "" }]) := by
  have hr := (read_ok client d s _ hcall).2
  have hs := build_scalars d
  rw [hr]
  refine ⟨hs.1, hs.2.1, hs.2.2, ?_, ?_, ?_⟩
  · intro c rest hc
    simp [build_configuration_cons d c rest hc]
  · intro c hc
    have hcfg := build_configuration_cons d c [] hc
    rw [hs.1, hs.2.1, hs.2.2, hcfg]
    cases d
    simp only at hc
    simp [hc]
  · intro hc
    simp [build_configuration_nil d hc]

/-- C5, amended, witness: a record with one configuration block comes back
unchanged. -/
theorem round_trip_witness :
    (resourceCloudflareUserAgentBlockingRulesRead scripted { sampleData with id := "ruleB" }
        [.ok { Result := buildUserAgentBlockingRules { sampleData with id := "ruleB" } }]).d
      = { sampleData with id := "ruleB" } :=
  (round_trip scripted { sampleData with id := "ruleB" }
    [.ok { Result := buildUserAgentBlockingRules { sampleData with id := "ruleB" } }]
    rfl).2.2.2.2.1 _ rfl

end MapperTheorems

/-! ## Update -/

section UpdateTheorems

variable {σ : Type}

/-- Update, when the update call succeeds, is the chained Read from the remote
state the update call left, with the update call put before Read's calls. -/
theorem update_ok (client : API σ) (d : ResourceData) (s s1 : σ)
    (resp : UserAgentRuleResponse)
    (hupd : client.UpdateUserAgentRule s d.zone_id d.id (buildUserAgentBlockingRules d)
      = (Except.ok resp, s1)) :
    (resourceCloudflareUserAgentBlockingRulesUpdate client d s).ret
        = (resourceCloudflareUserAgentBlockingRulesRead client d s1).ret
      ∧ (resourceCloudflareUserAgentBlockingRulesUpdate client d s).d
        = (resourceCloudflareUserAgentBlockingRulesRead client d s1).d
      ∧ (resourceCloudflareUserAgentBlockingRulesUpdate client d s).calls
        = { call := Call.UpdateUserAgentRule d.zone_id d.id (buildUserAgentBlockingRules d),
            err := none }
          :: (resourceCloudflareUserAgentBlockingRulesRead client d s1).calls := by
  simp [resourceCloudflareUserAgentBlockingRulesUpdate, ResourceData.Id, hupd]

/-- Update, when the update call fails, returns one diagnostic and leaves the
record as it was. -/
theorem update_error (client : API σ) (d : ResourceData) (s s1 : σ) (err : GoError)
    (hupd : client.UpdateUserAgentRule s d.zone_id d.id (buildUserAgentBlockingRules d)
      = (Except.error err, s1)) :
    (resourceCloudflareUserAgentBlockingRulesUpdate client d s).ret
        = diagFromErr (GoError.wrap err "failed to update User Agent Blocking Rule")
      ∧ (resourceCloudflareUserAgentBlockingRulesUpdate client d s).d = d
      ∧ (resourceCloudflareUserAgentBlockingRulesUpdate client d s).calls
        = [{ call := Call.UpdateUserAgentRule d.zone_id d.id (buildUserAgentBlockingRules d),
             err := some err }] := by
  simp [resourceCloudflareUserAgentBlockingRulesUpdate, ResourceData.Id, hupd]

/-- C6. If the update call succeeds and the lookup that follows it returns the
record `R`, then after Update the local `paused`, `mode` and `description` are
those of `R` and the local configuration is the one-entry list with the target
and the value of `R`; the identifier and `zone_id` are kept and no diagnostics
are returned.  The payload submitted does not occur in the result. -/
theorem update_reflects_server_record (client : API σ) (d : ResourceData) (s s1 : σ)
    (resp : UserAgentRuleResponse) (R : UserAgentRule)
    (hupd : client.UpdateUserAgentRule s d.zone_id d.id (buildUserAgentBlockingRules d)
      = (Except.ok resp, s1))
    (hget : (client.UserAgentRule s1 d.zone_id d.id).1 = Except.ok { Result := R }) :
    (resourceCloudflareUserAgentBlockingRulesUpdate client d s).d.paused = R.Paused
      ∧ (resourceCloudflareUserAgentBlockingRulesUpdate client d s).d.mode = R.Mode
      ∧ (resourceCloudflareUserAgentBlockingRulesUpdate client d s).d.description
        = R.Description
      ∧ (resourceCloudflareUserAgentBlockingRulesUpdate client d s).d.configuration
        = [{ target := R.Configuration.Target, value := R.Configuration.Value }]
      ∧ (resourceCloudflareUserAgentBlockingRulesUpdate client d s).d.id = d.id
      ∧ (resourceCloudflareUserAgentBlockingRulesUpdate client d s).d.zone_id = d.zone_id
      ∧ (resourceCloudflareUserAgentBlockingRulesUpdate client d s).ret = [] := by
  have hu := update_ok client d s s1 resp hupd
  have hr := read_ok client d s1 _ hget
  rw [hu.1, hu.2.1, hr.1, hr.2]
  simp

/-- C6, witness: the update call succeeds, echoing the payload, and the lookup
returns a record that differs from the payload in every field; the local state
is the record looked up. -/
theorem update_reflects_server_record_witness :
    buildUserAgentBlockingRules { sampleData with id := "ruleB" }
        = { ID := "", Description := "block bots", Mode := "block",
            Configuration := { Target := "ua", Value := "BadBot/1.0" }, Paused := false }
      ∧ (resourceCloudflareUserAgentBlockingRulesUpdate scripted
          { sampleData with id := "ruleB" }
          [.ok { Result := buildUserAgentBlockingRules { sampleData with id := "ruleB" } },
           .ok { Result := sampleRule }]).d
        = { id := "ruleB", zone_id := "zoneA", description := "server side", paused := true,
            mode := "challenge", configuration := [{ target := "ua", value := "Mozilla" }] } := by
  have h := update_reflects_server_record scripted { sampleData with id := "ruleB" }
    [.ok { Result := buildUserAgentBlockingRules { sampleData with id := "ruleB" } },
     .ok { Result := sampleRule }]
    [.ok { Result := sampleRule }]
    { Result := buildUserAgentBlockingRules { sampleData with id := "ruleB" } }
    sampleRule rfl rfl
  refine ⟨rfl, ?_⟩
  obtain ⟨h1, h2, h3, h4, h5, h6, _⟩ := h
  rw [ResourceData.mk.injEq]
  exact ⟨h5, h6, h3, h1, h2, h4⟩

/-- C7, as stated, fails: the identifier is `"ruleB"` before Update, the update
call succeeds, the lookup that follows reports not-found, and the identifier
is empty after Update. -/
theorem update_can_clear_id :
    ({ sampleData with id := "ruleB" } : ResourceData).id = "ruleB"
      ∧ (resourceCloudflareUserAgentBlockingRulesUpdate scripted
          { sampleData with id := "ruleB" }
          [.ok { Result := sampleRule }, .error (.notFound "no such rule")]).d.id = ""
      ∧ (resourceCloudflareUserAgentBlockingRulesUpdate scripted
          { sampleData with id := "ruleB" }
          [.ok { Result := sampleRule }, .error (.notFound "no such rule")]).d.id
        ≠ ({ sampleData with id := "ruleB" } : ResourceData).id :=
  ⟨rfl, rfl, by decide⟩

/-- C7, amended. After Update the identifier equals the identifier before it,
except when the update call succeeds and the lookup that follows reports
not-found, in which case the identifier is the empty string.  Update never
sets any other identifier. -/
theorem update_keeps_id_unless_not_found (client : API σ) (d : ResourceData) (s : σ) :
    ((resourceCloudflareUserAgentBlockingRulesUpdate client d s).d.id = d.id
        ∨ (resourceCloudflareUserAgentBlockingRulesUpdate client d s).d.id = "")
      ∧ (∀ err s1,
          client.UpdateUserAgentRule s d.zone_id d.id (buildUserAgentBlockingRules d)
            = (Except.error err, s1) →
          (resourceCloudflareUserAgentBlockingRulesUpdate client d s).d.id = d.id)
      ∧ (∀ resp s1,
          client.UpdateUserAgentRule s d.zone_id d.id (buildUserAgentBlockingRules d)
            = (Except.ok resp, s1) →
          lookupNotFound client s1 d.zone_id d.id = false →
          (resourceCloudflareUserAgentBlockingRulesUpdate client d s).d.id = d.id)
      ∧ (∀ resp s1,
          client.UpdateUserAgentRule s d.zone_id d.id (buildUserAgentBlockingRules d)
            = (Except.ok resp, s1) →
          lookupNotFound client s1 d.zone_id d.id = true →
          (resourceCloudflareUserAgentBlockingRulesUpdate client d s).d.id = "") := by
  refine ⟨?_, ?_, ?_, ?_⟩
  · rcases hupd : client.UpdateUserAgentRule s d.zone_id d.id (buildUserAgentBlockingRules d)
      with ⟨res, s1⟩
    cases res with
    | error err => exact Or.inl (by rw [(update_error client d s s1 err hupd).2.1])
    | ok resp =>
      rw [(update_ok client d s s1 resp hupd).2.1]
      exact read_id_kept_or_cleared client d s1
  · intro err s1 hupd
    rw [(update_error client d s s1 err hupd).2.1]
  · intro resp s1 hupd hnf
    rw [(update_ok client d s s1 resp hupd).2.1, read_id_of_lookup, hnf]
    simp
  · intro resp s1 hupd hnf
    rw [(update_ok client d s s1 resp hupd).2.1, read_id_of_lookup, hnf]
    simp

/-- C7, amended, witness: the update call succeeds and the lookup returns a
record, and the identifier is kept. -/
theorem update_keeps_id_unless_not_found_witness :
    (resourceCloudflareUserAgentBlockingRulesUpdate scripted
        { sampleData with id := "ruleB" }
        [.ok { Result := sampleRule }, .ok { Result := sampleRule }]).d.id = "ruleB" :=
  (update_keeps_id_unless_not_found scripted { sampleData with id := "ruleB" }
    [.ok { Result := sampleRule }, .ok { Result := sampleRule }]).2.2.1
    { Result := sampleRule } [.ok { Result := sampleRule }] rfl rfl

end UpdateTheorems

/-! ## Delete, and the surfacing of remote failures -/

section DeleteTheorems

variable {σ : Type}

/-- Read returns a diagnostic when its lookup fails with an error that is not
not-found. -/
theorem read_surfaces_failure (client : API σ) (d : ResourceData) (s : σ)
    (h : ∃ ev ∈ (resourceCloudflareUserAgentBlockingRulesRead client d s).calls,
      ev.failed = true) :
    (resourceCloudflareUserAgentBlockingRulesRead client d s).ret ≠ [] := by
  revert h
  simp only [resourceCloudflareUserAgentBlockingRulesRead, ResourceData.SetId,
    ResourceData.Id]
  rcases hres : client.UserAgentRule s d.zone_id d.id with ⟨res, s1⟩
  cases res with
  | error err => cases hnf : errorsAsNotFound err <;> simp [hnf, Event.failed, diagFromErr]
  | ok ua => simp [Event.failed]

/-- The store remote: a successful delete removes the rule. -/
theorem store_delete_removes (s : Nat × List (String × UserAgentRule)) (zoneID id : String)
    (resp : UserAgentRuleResponse) (s1 : Nat × List (String × UserAgentRule))
    (h : store.DeleteUserAgentRule s zoneID id = (Except.ok resp, s1)) :
    ¬ storeHolds s1 zoneID id := by
  simp only [store] at h
  cases hf : List.find? (fun e => e.1 == zoneID && e.2.ID == id) s.2 with
  | none => rw [hf] at h; simp at h
  | some e =>
    rw [hf] at h
    simp only [Prod.mk.injEq] at h
    rw [← h.2]
    simp only [storeHolds, Bool.not_eq_true, Option.not_isSome, Option.isNone_iff_eq_none,
      List.find?_eq_none]
    intro x hx
    have hx2 := (List.mem_filter.mp hx).2
    cases hp : (x.1 == zoneID && x.2.ID == id) with
    | false => simp
    | true => simp [hp] at hx2

/-- The store remote: the lookup of a missing rule reports not-found. -/
theorem store_lookup_missing (s : Nat × List (String × UserAgentRule)) (zoneID id : String)
    (h : ¬ storeHolds s zoneID id) : lookupNotFound store s zoneID id = true := by
  simp only [storeHolds, Bool.not_eq_true, Option.not_isSome, Option.isNone_iff_eq_none] at h
  simp [lookupNotFound, store, h, errorsAsNotFound]

/-- C8. Over a remote in which a successful delete removes the rule and the
lookup of a missing rule reports not-found, after a Delete that returns no
diagnostics the identifier is empty, and a following Read leaves it empty
whatever remote it runs against and whatever that remote answers.  Read only
ever keeps the identifier or sets it to the empty string. -/
theorem delete_then_read_does_not_resurrect {τ : Type} (client : API σ)
    (holds : σ → String → String → Prop)
    (hremove : ∀ s zoneID id resp s1,
      client.DeleteUserAgentRule s zoneID id = (Except.ok resp, s1) → ¬ holds s1 zoneID id)
    (hmissing : ∀ s zoneID id, ¬ holds s zoneID id → lookupNotFound client s zoneID id = true)
    (d : ResourceData) (s : σ)
    (hsucc : (resourceCloudflareUserAgentBlockingRulesDelete client d s).ret = []) :
    (resourceCloudflareUserAgentBlockingRulesDelete client d s).d.id = ""
      ∧ (∀ (client2 : API τ) (s2 : τ),
          (resourceCloudflareUserAgentBlockingRulesRead client2
            (resourceCloudflareUserAgentBlockingRulesDelete client d s).d s2).d.id = "")
      ∧ (∀ (client2 : API τ) (d2 : ResourceData) (s2 : τ),
          (resourceCloudflareUserAgentBlockingRulesRead client2 d2 s2).d.id = d2.id
            ∨ (resourceCloudflareUserAgentBlockingRulesRead client2 d2 s2).d.id = "") := by
  have hid : (resourceCloudflareUserAgentBlockingRulesDelete client d s).d.id = "" := by
    revert hsucc
    simp only [resourceCloudflareUserAgentBlockingRulesDelete, ResourceData.Id]
    rcases hdel : client.DeleteUserAgentRule s d.zone_id d.id with ⟨res, s1⟩
    cases res with
    | error err => simp [diagFromErr]
    | ok resp =>
      intro _
      have hnf := hmissing s1 d.zone_id d.id (hremove s d.zone_id d.id resp s1 hdel)
      simp only
      rw [read_id_of_lookup, hnf]
      simp
  refine ⟨hid, ?_, fun client2 d2 s2 => read_id_kept_or_cleared client2 d2 s2⟩
  intro client2 s2
  rcases read_id_kept_or_cleared client2
    (resourceCloudflareUserAgentBlockingRulesDelete client d s).d s2 with h | h
  · rw [h, hid]
  · exact h

/-- C8, witness: the store remote holding one rule; Delete removes it, and a
following Read against the store, or against a remote that answers the lookup
of the empty identifier with a record, leaves the identifier empty. -/
theorem delete_then_read_does_not_resurrect_witness :
    (resourceCloudflareUserAgentBlockingRulesDelete store { sampleData with id := "ruleB" }
        (1, [("zoneA", sampleRule)])).ret = []
      ∧ (resourceCloudflareUserAgentBlockingRulesDelete store { sampleData with id := "ruleB" }
        (1, [("zoneA", sampleRule)])).remote = (1, [])
      ∧ (resourceCloudflareUserAgentBlockingRulesDelete store { sampleData with id := "ruleB" }
        (1, [("zoneA", sampleRule)])).d.id = ""
      ∧ (resourceCloudflareUserAgentBlockingRulesRead scripted
          (resourceCloudflareUserAgentBlockingRulesDelete store { sampleData with id := "ruleB" }
            (1, [("zoneA", sampleRule)])).d
          [.ok { Result := sampleRule }]).d.id = "" :=
  have h := delete_then_read_does_not_resurrect store storeHolds store_delete_removes
    store_lookup_missing { sampleData with id := "ruleB" } (1, [("zoneA", sampleRule)]) rfl
  ⟨rfl, rfl, h.1, h.2.1 scripted [.ok { Result := sampleRule }]⟩

/-- C9. For each of Create, Read, Update and Delete: if one of the remote calls
the operation makes (its own write call or the lookup of the Read it chains
to) returns an error that is not a not-found error, the operation returns a
non-empty diagnostics list. -/
theorem remote_failures_surfaced (client : API σ) (d : ResourceData) (s : σ) :
    ((∃ ev ∈ (resourceCloudflareUserAgentBlockingRulesCreate client d s).calls,
        ev.failed = true) →
      (resourceCloudflareUserAgentBlockingRulesCreate client d s).ret ≠ [])
    ∧ ((∃ ev ∈ (resourceCloudflareUserAgentBlockingRulesRead client d s).calls,
        ev.failed = true) →
      (resourceCloudflareUserAgentBlockingRulesRead client d s).ret ≠ [])
    ∧ ((∃ ev ∈ (resourceCloudflareUserAgentBlockingRulesUpdate client d s).calls,
        ev.failed = true) →
      (resourceCloudflareUserAgentBlockingRulesUpdate client d s).ret ≠ [])
    ∧ ((∃ ev ∈ (resourceCloudflareUserAgentBlockingRulesDelete client d s).calls,
        ev.failed = true) →
      (resourceCloudflareUserAgentBlockingRulesDelete client d s).ret ≠ []) := by
  refine ⟨?_, read_surfaces_failure client d s, ?_, ?_⟩
  · simp only [resourceCloudflareUserAgentBlockingRulesCreate]
    rcases hc : client.CreateUserAgentRule s d.zone_id (buildUserAgentBlockingRules d)
      with ⟨res, s1⟩
    cases res with
    | error err => simp [diagFromErr]
    | ok rule =>
      rintro ⟨ev, hev, hf⟩
      simp only [List.mem_cons] at hev
      rcases hev with hev | hev
      · subst hev; simp [Event.failed] at hf
      · exact read_surfaces_failure client _ s1 ⟨ev, hev, hf⟩
  · simp only [resourceCloudflareUserAgentBlockingRulesUpdate, ResourceData.Id]
    rcases hc : client.UpdateUserAgentRule s d.zone_id d.id (buildUserAgentBlockingRules d)
      with ⟨res, s1⟩
    cases res with
    | error err => simp [diagFromErr]
    | ok rule =>
      rintro ⟨ev, hev, hf⟩
      simp only [List.mem_cons] at hev
      rcases hev with hev | hev
      · subst hev; simp [Event.failed] at hf
      · exact read_surfaces_failure client _ s1 ⟨ev, hev, hf⟩
  · simp only [resourceCloudflareUserAgentBlockingRulesDelete, ResourceData.Id]
    rcases hc : client.DeleteUserAgentRule s d.zone_id d.id with ⟨res, s1⟩
    cases res with
    | error err => simp [diagFromErr]
    | ok rule =>
      rintro ⟨ev, hev, hf⟩
      simp only [List.mem_cons] at hev
      rcases hev with hev | hev
      · subst hev; simp [Event.failed] at hf
      · exact read_surfaces_failure client _ s1 ⟨ev, hev, hf⟩

/-- C9, witness: Create and Delete whose chained lookup times out, Read whose
lookup times out, and Update whose update call times out. -/
theorem remote_failures_surfaced_witness :
    (resourceCloudflareUserAgentBlockingRulesCreate scripted sampleData
        [.ok { Result := sampleRule }, .error (.other "timeout")]).ret ≠ []
      ∧ (resourceCloudflareUserAgentBlockingRulesRead scripted { sampleData with id := "ruleB" }
        [.error (.other "timeout")]).ret ≠ []
      ∧ (resourceCloudflareUserAgentBlockingRulesUpdate scripted
        { sampleData with id := "ruleB" } [.error (.other "timeout")]).ret ≠ []
      ∧ (resourceCloudflareUserAgentBlockingRulesDelete scripted
        { sampleData with id := "ruleB" }
        [.ok { Result := sampleRule }, .error (.other "timeout")]).ret ≠ [] :=
  ⟨(remote_failures_surfaced scripted sampleData
      [.ok { Result := sampleRule }, .error (.other "timeout")]).1
      ⟨{ call := Call.UserAgentRule "zoneA" "ruleB", err := some (.other "timeout") },
        by decide, rfl⟩,
   (remote_failures_surfaced scripted { sampleData with id := "ruleB" }
      [.error (.other "timeout")]).2.1
      ⟨{ call := Call.UserAgentRule "zoneA" "ruleB", err := some (.other "timeout") },
        by decide, rfl⟩,
   (remote_failures_surfaced scripted { sampleData with id := "ruleB" }
      [.error (.other "timeout")]).2.2.1
      ⟨{ call := Call.UpdateUserAgentRule "zoneA" "ruleB"
            (buildUserAgentBlockingRules { sampleData with id := "ruleB" }),
         err := some (.other "timeout") },
        by decide, rfl⟩,
   (remote_failures_surfaced scripted { sampleData with id := "ruleB" }
      [.ok { Result := sampleRule }, .error (.other "timeout")]).2.2.2
      ⟨{ call := Call.UserAgentRule "zoneA" "ruleB", err := some (.other "timeout") },
        by decide, rfl⟩⟩

end DeleteTheorems

end UserAgentBlockingRule
